import Mathlib

/-!
Verification development for the atmospheric transmission comparison
repository.  The two pieces of algorithmic code under study are:

* `SingleGasUMG._optical_depth` in `python_gas_analysis.py`: the
  per-species uniformly-mixed-gas (UMG) optical-depth accumulator with a
  `target_gas` selector and a trace-gas flag;
* the combiner in `compare_matlab_python_transmission.py`: `np.interp`
  of each component transmittance onto a target wavelength grid,
  followed by the elementwise product `trans_total`.

The gas engine works elementwise: `taug_l` has shape
`(len(sza), len(wvl_arr))` and every `+=` adds
`abs_s[j] * abundance_s * am_s[i]` at entry `(i, j)`, where the
absorption coefficient depends only on the wavelength index and the
airmass only on the zenith-angle index.  We therefore embed one entry
`(i, j)` of the matrix: the external data (the absorption-coefficient
tables `getattr(self, f'<c>abs')` and `Airmass_from_SMARTS`, both from
the out-of-scope `transmission_fitter` package) become one abstract
value per constituent name, collected in `GasData`.  Real arithmetic
stands for float arithmetic; `**` on floats becomes `Real.rpow` (or a
natural power for the literal integer exponents), `np.exp` becomes
`Real.exp`, `np.log` becomes `Real.log`.

The combiner involves only rational operations (linear interpolation,
comparisons, products), so it is embedded over `ℚ` and stays fully
executable.
-/

/-- Loschmidt number, `NLOSCHMIDT = 2.6868e19` in
`compare_trace_gas_absorption.py`. -/
def NLOSCHMIDT : ℝ := 2.6868e19

noncomputable section

/-- Abstract per-point external data of the gas engine: for the fixed
zenith angle and wavelength under study, `absCoeff c` is the value of
the absorption-coefficient table `getattr(self, f'<c>abs')` at that
wavelength and `airmass c` is `Airmass_from_SMARTS(sza, c)`, both keyed
by the constituent name string `c` exactly as the Python code keys
them. -/
structure GasData where
  absCoeff : String → ℝ
  airmass : String → ℝ

/-- Oxygen column abundance, `1.67766e5 * pp0`
(`python_gas_analysis.py` line 49). -/
def o2_abundance (pp0 : ℝ) : ℝ := 1.67766e5 * pp0

/-- Methane column abundance, `1.3255 * (pp0 ** 1.0574)` (line 54). -/
def ch4_abundance (pp0 : ℝ) : ℝ := 1.3255 * pp0 ^ (1.0574 : ℝ)

/-- Carbon-monoxide column abundance,
`.29625 * (pp0**2.4480) * np.exp(.54669 - 2.4114*pp0 + .65756*(pp0**2))`
(lines 59-60). -/
def co_abundance (pp0 : ℝ) : ℝ :=
  0.29625 * pp0 ^ (2.4480 : ℝ) *
    Real.exp (0.54669 - 2.4114 * pp0 + 0.65756 * pp0 ^ 2)

/-- Nitrous-oxide column abundance, `.24730 * (pp0**1.0791)` (line 65). -/
def n2o_abundance (pp0 : ℝ) : ℝ := 0.24730 * pp0 ^ (1.0791 : ℝ)

/-- Carbon-dioxide column abundance, `0.802685 * self.co2_ppm * pp0`
(line 70). -/
def co2_abundance (co2_ppm pp0 : ℝ) : ℝ := 0.802685 * co2_ppm * pp0

/-- Nitrogen column abundance, `3.8269 * (pp0**1.8374)` (line 75). -/
def n2_abundance (pp0 : ℝ) : ℝ := 3.8269 * pp0 ^ (1.8374 : ℝ)

/-- Oxygen-dimer column abundance,
`1.8171e4 * (NLOSCHMIDT**2) * (pp0**1.7984) / (tt0**.344)` with
`tt0 = (self.tair + 273.15) / 273.15` (lines 37 and 80). -/
def o4_abundance (tair pp0 : ℝ) : ℝ :=
  1.8171e4 * NLOSCHMIDT ^ 2 * pp0 ^ (1.7984 : ℝ) /
    ((tair + 273.15) / 273.15) ^ (0.344 : ℝ)

/-- Ammonia column abundance,
`np.exp(-8.6499 + 2.1947*lpp0 - 2.5936*(lpp0**2) - 1.819*(lpp0**3)
- 0.65854*(lpp0**4))` with `lpp0 = np.log(pp0)` (lines 87-90). -/
def nh3_abundance (pp0 : ℝ) : ℝ :=
  Real.exp (-8.6499 + 2.1947 * Real.log pp0 - 2.5936 * Real.log pp0 ^ 2
    - 1.819 * Real.log pp0 ^ 3 - 0.65854 * Real.log pp0 ^ 4)

/-- One entry of the matrix returned by `SingleGasUMG._optical_depth`
(`python_gas_analysis.py` lines 34-93).  `taug_l` starts at zero and
each branch guarded by `self.target_gas == '<GAS>' or
self.target_gas == 'ALL'` adds `getabs(c) * abundance * getam(c)`; the
sequential `+=` accumulation is written as the sum of the guarded
terms.  The `O4` branch multiplies by `getam('o2')`, exactly as line 81
of the source does, and the `NH3` branch is additionally guarded by
`self.with_trace_gases` (line 84). -/
def optical_depth (d : GasData) (tair co2_ppm : ℝ) (with_trace_gases : Bool)
    (target_gas : String) (pp0 : ℝ) : ℝ :=
  (if target_gas = "O2" ∨ target_gas = "ALL" then
    d.absCoeff "o2" * o2_abundance pp0 * d.airmass "o2" else 0)
  + (if target_gas = "CH4" ∨ target_gas = "ALL" then
    d.absCoeff "ch4" * ch4_abundance pp0 * d.airmass "ch4" else 0)
  + (if target_gas = "CO" ∨ target_gas = "ALL" then
    d.absCoeff "co" * co_abundance pp0 * d.airmass "co" else 0)
  + (if target_gas = "N2O" ∨ target_gas = "ALL" then
    d.absCoeff "n2o" * n2o_abundance pp0 * d.airmass "n2o" else 0)
  + (if target_gas = "CO2" ∨ target_gas = "ALL" then
    d.absCoeff "co2" * co2_abundance co2_ppm pp0 * d.airmass "co2" else 0)
  + (if target_gas = "N2" ∨ target_gas = "ALL" then
    d.absCoeff "n2" * n2_abundance pp0 * d.airmass "n2" else 0)
  + (if target_gas = "O4" ∨ target_gas = "ALL" then
    d.absCoeff "o4" * o4_abundance tair pp0 * d.airmass "o2" else 0)
  + (if with_trace_gases then
      (if target_gas = "NH3" ∨ target_gas = "ALL" then
        d.absCoeff "nh3" * nh3_abundance pp0 * d.airmass "nh3" else 0)
     else 0)

/-- Gas data with unit absorption coefficients and unit airmasses, used
to read the bare abundance factor off the accumulator. -/
def unitGasData : GasData := ⟨fun _ => 1, fun _ => 1⟩

end

/-- Targets recognised by the branches of
`SingleGasUMG._optical_depth`, together with the `'ALL'` selector. -/
def knownTargets : List String :=
  ["ALL", "O2", "CH4", "CO", "N2O", "CO2", "N2", "O4", "NH3"]

section GasLemmas

variable (d : GasData) (tair co2_ppm pp0 : ℝ) (wt : Bool)

theorem optical_depth_O2 :
    optical_depth d tair co2_ppm wt "O2" pp0 =
      d.absCoeff "o2" * o2_abundance pp0 * d.airmass "o2" := by
  simp [optical_depth]

theorem optical_depth_CH4 :
    optical_depth d tair co2_ppm wt "CH4" pp0 =
      d.absCoeff "ch4" * ch4_abundance pp0 * d.airmass "ch4" := by
  simp [optical_depth]

theorem optical_depth_CO :
    optical_depth d tair co2_ppm wt "CO" pp0 =
      d.absCoeff "co" * co_abundance pp0 * d.airmass "co" := by
  simp [optical_depth]

theorem optical_depth_N2O :
    optical_depth d tair co2_ppm wt "N2O" pp0 =
      d.absCoeff "n2o" * n2o_abundance pp0 * d.airmass "n2o" := by
  simp [optical_depth]

theorem optical_depth_CO2 :
    optical_depth d tair co2_ppm wt "CO2" pp0 =
      d.absCoeff "co2" * co2_abundance co2_ppm pp0 * d.airmass "co2" := by
  simp [optical_depth]

theorem optical_depth_N2 :
    optical_depth d tair co2_ppm wt "N2" pp0 =
      d.absCoeff "n2" * n2_abundance pp0 * d.airmass "n2" := by
  simp [optical_depth]

theorem optical_depth_O4 :
    optical_depth d tair co2_ppm wt "O4" pp0 =
      d.absCoeff "o4" * o4_abundance tair pp0 * d.airmass "o2" := by
  simp [optical_depth]

theorem optical_depth_NH3 :
    optical_depth d tair co2_ppm wt "NH3" pp0 =
      (if wt then d.absCoeff "nh3" * nh3_abundance pp0 * d.airmass "nh3"
       else 0) := by
  simp [optical_depth]

theorem optical_depth_ALL :
    optical_depth d tair co2_ppm wt "ALL" pp0 =
      d.absCoeff "o2" * o2_abundance pp0 * d.airmass "o2"
      + d.absCoeff "ch4" * ch4_abundance pp0 * d.airmass "ch4"
      + d.absCoeff "co" * co_abundance pp0 * d.airmass "co"
      + d.absCoeff "n2o" * n2o_abundance pp0 * d.airmass "n2o"
      + d.absCoeff "co2" * co2_abundance co2_ppm pp0 * d.airmass "co2"
      + d.absCoeff "n2" * n2_abundance pp0 * d.airmass "n2"
      + d.absCoeff "o4" * o4_abundance tair pp0 * d.airmass "o2"
      + (if wt then d.absCoeff "nh3" * nh3_abundance pp0 * d.airmass "nh3"
         else 0) := by
  simp [optical_depth]

theorem optical_depth_unknown {target : String} (h : target ∉ knownTargets) :
    optical_depth d tair co2_ppm wt target pp0 = 0 := by
  simp only [knownTargets, List.mem_cons, List.not_mem_nil, or_false,
    not_or] at h
  obtain ⟨hALL, hO2, hCH4, hCO, hN2O, hCO2, hN2, hO4, hNH3⟩ := h
  simp [optical_depth, hALL, hO2, hCH4, hCO, hN2O, hCO2, hN2, hO4, hNH3]

end GasLemmas

noncomputable section

/-- Modelled from the spec: `python_gas_analysis.py` raises nothing
itself, and the spec's §7 error taxonomy demands an
`UnknownSpeciesError` for a species selection outside the fixed
enumerated set; this checked variant follows the spec's words and is
compared against the code's actual behaviour. -/
def optical_depth_checked (d : GasData) (tair co2_ppm : ℝ)
    (with_trace_gases : Bool) (target_gas : String) (pp0 : ℝ) :
    Except String ℝ :=
  if target_gas ∈ knownTargets then
    Except.ok (optical_depth d tair co2_ppm with_trace_gases target_gas pp0)
  else Except.error "UnknownSpeciesError"

/-- Gas data whose `o4` airmass entry differs from its `o2` entry,
separating the two dispatch policies. -/
def o4TestData : GasData := ⟨fun _ => 1, fun s => if s = "o4" then 2 else 1⟩

end

/-- C1: with the trace-gas flag set, the optical depth computed with
`target_gas='ALL'` equals, pointwise, the sum of the optical depths
computed with each of the eight species selected individually.  Over
real arithmetic the equality is exact, hence within any relative
floating-point tolerance. -/
theorem C1_umg_additive_decomposition (d : GasData) (tair co2_ppm pp0 : ℝ)
    (h : 0 < pp0) :
    optical_depth d tair co2_ppm true "ALL" pp0 =
      optical_depth d tair co2_ppm true "O2" pp0
      + optical_depth d tair co2_ppm true "CH4" pp0
      + optical_depth d tair co2_ppm true "CO" pp0
      + optical_depth d tair co2_ppm true "N2O" pp0
      + optical_depth d tair co2_ppm true "CO2" pp0
      + optical_depth d tair co2_ppm true "N2" pp0
      + optical_depth d tair co2_ppm true "O4" pp0
      + optical_depth d tair co2_ppm true "NH3" pp0 := by
  rw [optical_depth_ALL, optical_depth_O2, optical_depth_CH4,
    optical_depth_CO, optical_depth_N2O, optical_depth_CO2,
    optical_depth_N2, optical_depth_O4, optical_depth_NH3]

/-- Witness for C1 at `pp0 = 1`. -/
theorem C1_umg_additive_decomposition_witness :
    (0:ℝ) < 1 ∧
    optical_depth unitGasData 15 415 true "ALL" 1 =
      optical_depth unitGasData 15 415 true "O2" 1
      + optical_depth unitGasData 15 415 true "CH4" 1
      + optical_depth unitGasData 15 415 true "CO" 1
      + optical_depth unitGasData 15 415 true "N2O" 1
      + optical_depth unitGasData 15 415 true "CO2" 1
      + optical_depth unitGasData 15 415 true "N2" 1
      + optical_depth unitGasData 15 415 true "O4" 1
      + optical_depth unitGasData 15 415 true "NH3" 1 :=
  ⟨by norm_num, C1_umg_additive_decomposition unitGasData 15 415 1 (by norm_num)⟩

/-- C2 counterexample: at `tair = 0`, `pp0 = 1`, with gas data whose
`o4` airmass entry is `2` while every other entry is `1`, the `O4`
branch of `_optical_depth` does NOT equal
`absCoeff o4 * abundance * airmass "o4"`: line 81 of the source
multiplies by `getam('o2')`, not by an `'o4'` airmass. -/
theorem C2_o4_airmass_counterexample :
    optical_depth o4TestData 0 415 true "O4" 1 ≠
      o4TestData.absCoeff "o4" * o4_abundance 0 1 * o4TestData.airmass "o4" := by
  have hA : o4_abundance 0 1 = 1.8171e4 * NLOSCHMIDT ^ 2 := by
    unfold o4_abundance
    norm_num [Real.one_rpow]
  rw [optical_depth_O4, hA]
  simp [o4TestData]
  norm_num [NLOSCHMIDT]

/-- C2 amended: every UMG species' term is multiplied by the SMARTS
airmass of its own constituent name, with the single exception of `O4`
(the oxygen collision complex), whose term is multiplied by the `'o2'`
airmass. -/
theorem C2_airmass_dispatch (d : GasData) (tair co2_ppm pp0 : ℝ) (wt : Bool) :
    optical_depth d tair co2_ppm wt "O2" pp0 =
      d.absCoeff "o2" * o2_abundance pp0 * d.airmass "o2"
    ∧ optical_depth d tair co2_ppm wt "CH4" pp0 =
      d.absCoeff "ch4" * ch4_abundance pp0 * d.airmass "ch4"
    ∧ optical_depth d tair co2_ppm wt "CO" pp0 =
      d.absCoeff "co" * co_abundance pp0 * d.airmass "co"
    ∧ optical_depth d tair co2_ppm wt "N2O" pp0 =
      d.absCoeff "n2o" * n2o_abundance pp0 * d.airmass "n2o"
    ∧ optical_depth d tair co2_ppm wt "CO2" pp0 =
      d.absCoeff "co2" * co2_abundance co2_ppm pp0 * d.airmass "co2"
    ∧ optical_depth d tair co2_ppm wt "N2" pp0 =
      d.absCoeff "n2" * n2_abundance pp0 * d.airmass "n2"
    ∧ optical_depth d tair co2_ppm wt "O4" pp0 =
      d.absCoeff "o4" * o4_abundance tair pp0 * d.airmass "o2"
    ∧ optical_depth d tair co2_ppm true "NH3" pp0 =
      d.absCoeff "nh3" * nh3_abundance pp0 * d.airmass "nh3" := by
  refine ⟨optical_depth_O2 _ _ _ _ _, optical_depth_CH4 _ _ _ _ _,
    optical_depth_CO _ _ _ _ _, optical_depth_N2O _ _ _ _ _,
    optical_depth_CO2 _ _ _ _ _, optical_depth_N2 _ _ _ _ _,
    optical_depth_O4 _ _ _ _ _, ?_⟩
  rw [optical_depth_NH3]
  simp

/-- C3 counterexample: for the unknown selection `"XENON"` the code
returns a value (it falls through every branch and hands back the
untouched zero accumulator), whereas the spec-modelled checked variant
demands an `UnknownSpeciesError`. -/
theorem C3_unknown_species_counterexample :
    Except.ok (optical_depth unitGasData 15 415 true "XENON" 1) ≠
      optical_depth_checked unitGasData 15 415 true "XENON" 1 := by
  simp [optical_depth_checked, knownTargets]

/-- C3 amended: a species selection outside the enumerated set raises
nothing: `_optical_depth` returns the all-zero optical-depth spectrum,
while the spec-modelled checked variant would have returned
`UnknownSpeciesError`. -/
theorem C3_unknown_species_silent_zero (d : GasData) (tair co2_ppm pp0 : ℝ)
    (wt : Bool) (target : String) (h : target ∉ knownTargets) :
    optical_depth d tair co2_ppm wt target pp0 = 0 ∧
    optical_depth_checked d tair co2_ppm wt target pp0 =
      Except.error "UnknownSpeciesError" := by
  refine ⟨optical_depth_unknown d tair co2_ppm pp0 wt h, ?_⟩
  rw [optical_depth_checked, if_neg h]

/-- Witness for C3 amended at the unknown selection `"FOO"`. -/
theorem C3_unknown_species_silent_zero_witness :
    ("FOO" ∉ knownTargets) ∧
    (optical_depth unitGasData 15 415 true "FOO" 1 = 0 ∧
     optical_depth_checked unitGasData 15 415 true "FOO" 1 =
       Except.error "UnknownSpeciesError") :=
  ⟨by decide, C3_unknown_species_silent_zero unitGasData 15 415 1 true "FOO"
    (by decide)⟩

noncomputable section

/-- NO2 column abundance,
`1e-4 * min(1.8599 + 0.18453 * pp0, 41.771 * pp0)`
(`compare_trace_gas_absorption.py` line 43, where `pp0 = p_/1013.25`). -/
def no2_abundance (pp0 : ℝ) : ℝ :=
  1e-4 * min (1.8599 + 0.18453 * pp0) (41.771 * pp0)

/-- SO2 column abundance,
`1e-4 * 0.11133 * (pp0**0.812) * np.exp(0.81319 + 3.0557*(pp0**2)
- 1.578*(pp0**3))` (`compare_trace_gas_absorption.py` line 61). -/
def so2_abundance (pp0 : ℝ) : ℝ :=
  1e-4 * 0.11133 * pp0 ^ (0.812 : ℝ) *
    Real.exp (0.81319 + 3.0557 * pp0 ^ 2 - 1.578 * pp0 ^ 3)

end

/-- C4: for every `pp0 > 0` the per-species column abundances used by
the accumulator (read off with unit absorption coefficients and unit
airmasses) are exactly the closed-form fits stated in the spec, with
the Loschmidt number equal to `2.6868e19`. -/
theorem C4_umg_abundance_formulas (tair co2_ppm pp0 : ℝ) (h : 0 < pp0) :
    NLOSCHMIDT = 2.6868e19
    ∧ optical_depth unitGasData tair co2_ppm true "O2" pp0 =
        1.67766e5 * pp0
    ∧ optical_depth unitGasData tair co2_ppm true "CH4" pp0 =
        1.3255 * pp0 ^ (1.0574 : ℝ)
    ∧ optical_depth unitGasData tair co2_ppm true "CO" pp0 =
        0.29625 * pp0 ^ (2.448 : ℝ) *
          Real.exp (0.54669 - 2.4114 * pp0 + 0.65756 * pp0 ^ 2)
    ∧ optical_depth unitGasData tair co2_ppm true "N2O" pp0 =
        0.24730 * pp0 ^ (1.0791 : ℝ)
    ∧ optical_depth unitGasData tair co2_ppm true "CO2" pp0 =
        0.802685 * co2_ppm * pp0
    ∧ optical_depth unitGasData tair co2_ppm true "N2" pp0 =
        3.8269 * pp0 ^ (1.8374 : ℝ)
    ∧ optical_depth unitGasData tair co2_ppm true "O4" pp0 =
        1.8171e4 * (2.6868e19 : ℝ) ^ 2 * pp0 ^ (1.7984 : ℝ) /
          ((tair + 273.15) / 273.15) ^ (0.344 : ℝ)
    ∧ optical_depth unitGasData tair co2_ppm true "NH3" pp0 =
        Real.exp (-8.6499 + 2.1947 * Real.log pp0
          - 2.5936 * Real.log pp0 ^ 2 - 1.819 * Real.log pp0 ^ 3
          - 0.65854 * Real.log pp0 ^ 4) := by
  refine ⟨rfl, ?_, ?_, ?_, ?_, ?_, ?_, ?_, ?_⟩
  · rw [optical_depth_O2]; simp [unitGasData, o2_abundance]
  · rw [optical_depth_CH4]; simp [unitGasData, ch4_abundance]
  · rw [optical_depth_CO]; simp [unitGasData, co_abundance]; norm_num
  · rw [optical_depth_N2O]; simp [unitGasData, n2o_abundance]
  · rw [optical_depth_CO2]; simp [unitGasData, co2_abundance]
  · rw [optical_depth_N2]; simp [unitGasData, n2_abundance]
  · rw [optical_depth_O4]; simp [unitGasData, o4_abundance, NLOSCHMIDT]
  · rw [optical_depth_NH3]; simp [unitGasData, nh3_abundance]

/-- Witness for C4 at `pp0 = 1`, `tair = 15`, `co2_ppm = 415`. -/
theorem C4_umg_abundance_formulas_witness :
    (0:ℝ) < 1
    ∧ (NLOSCHMIDT = 2.6868e19
    ∧ optical_depth unitGasData 15 415 true "O2" 1 = 1.67766e5 * 1
    ∧ optical_depth unitGasData 15 415 true "CH4" 1 =
        1.3255 * (1:ℝ) ^ (1.0574 : ℝ)
    ∧ optical_depth unitGasData 15 415 true "CO" 1 =
        0.29625 * (1:ℝ) ^ (2.448 : ℝ) *
          Real.exp (0.54669 - 2.4114 * 1 + 0.65756 * (1:ℝ) ^ 2)
    ∧ optical_depth unitGasData 15 415 true "N2O" 1 =
        0.24730 * (1:ℝ) ^ (1.0791 : ℝ)
    ∧ optical_depth unitGasData 15 415 true "CO2" 1 = 0.802685 * 415 * 1
    ∧ optical_depth unitGasData 15 415 true "N2" 1 =
        3.8269 * (1:ℝ) ^ (1.8374 : ℝ)
    ∧ optical_depth unitGasData 15 415 true "O4" 1 =
        1.8171e4 * (2.6868e19 : ℝ) ^ 2 * (1:ℝ) ^ (1.7984 : ℝ) /
          (((15:ℝ) + 273.15) / 273.15) ^ (0.344 : ℝ)
    ∧ optical_depth unitGasData 15 415 true "NH3" 1 =
        Real.exp (-8.6499 + 2.1947 * Real.log 1
          - 2.5936 * Real.log 1 ^ 2 - 1.819 * Real.log 1 ^ 3
          - 0.65854 * Real.log 1 ^ 4)) :=
  ⟨by norm_num, C4_umg_abundance_formulas 15 415 1 (by norm_num)⟩

/-- C5: for every `pp0 > 0` the NO2 and SO2 column abundances are the
stated closed forms and are non-negative. -/
theorem C5_trace_abundance_formulas (pp0 : ℝ) (h : 0 < pp0) :
    no2_abundance pp0 =
      1e-4 * min (1.8599 + 0.18453 * pp0) (41.771 * pp0)
    ∧ 0 ≤ no2_abundance pp0
    ∧ so2_abundance pp0 =
      1e-4 * 0.11133 * pp0 ^ (0.812 : ℝ) *
        Real.exp (0.81319 + 3.0557 * pp0 ^ 2 - 1.578 * pp0 ^ 3)
    ∧ 0 ≤ so2_abundance pp0 := by
  refine ⟨rfl, ?_, rfl, ?_⟩
  · have h1 : (0:ℝ) < 1.8599 + 0.18453 * pp0 := by positivity
    have h2 : (0:ℝ) < 41.771 * pp0 := by positivity
    have := lt_min h1 h2
    rw [no2_abundance]
    positivity
  · rw [so2_abundance]
    positivity

/-- Witness for C5 at `pp0 = 1`. -/
theorem C5_trace_abundance_formulas_witness :
    (0:ℝ) < 1
    ∧ (no2_abundance 1 =
        1e-4 * min (1.8599 + 0.18453 * 1) (41.771 * 1)
    ∧ 0 ≤ no2_abundance 1
    ∧ so2_abundance 1 =
        1e-4 * 0.11133 * (1:ℝ) ^ (0.812 : ℝ) *
          Real.exp (0.81319 + 3.0557 * (1:ℝ) ^ 2 - 1.578 * (1:ℝ) ^ 3)
    ∧ 0 ≤ so2_abundance 1) :=
  ⟨by norm_num, C5_trace_abundance_formulas 1 (by norm_num)⟩

/-- C6: the NH3 term contributes exactly when the trace-gas flag is
set: for every selection, the run with the flag clear equals the run
with the flag set minus the NH3 term, the latter being present exactly
for the selections `'NH3'` and `'ALL'`. -/
theorem C6_trace_gas_gating (d : GasData) (tair co2_ppm pp0 : ℝ)
    (target : String) :
    optical_depth d tair co2_ppm false target pp0 =
      optical_depth d tair co2_ppm true target pp0
      - (if target = "NH3" ∨ target = "ALL" then
          d.absCoeff "nh3" * nh3_abundance pp0 * d.airmass "nh3" else 0) := by
  simp only [optical_depth, Bool.false_eq_true, if_false, if_true]
  ring

/-- C9: the temperature enters only through the `O4` abundance, so any
selection other than `'O4'` and `'ALL'` yields identical optical depths
for any two temperatures, all other inputs equal. -/
theorem C9_temperature_noninterference (d : GasData)
    (tair tair' co2_ppm pp0 : ℝ) (wt : Bool) (target : String)
    (h1 : target ≠ "O4") (h2 : target ≠ "ALL") :
    optical_depth d tair co2_ppm wt target pp0 =
      optical_depth d tair' co2_ppm wt target pp0 := by
  have hc : ¬(target = "O4" ∨ target = "ALL") := by simp [h1, h2]
  simp only [optical_depth, if_neg hc]

/-- Witness for C9: the `'O2'` selection at temperatures `0` and `100`. -/
theorem C9_temperature_noninterference_witness :
    ("O2" ≠ "O4" ∧ "O2" ≠ "ALL")
    ∧ optical_depth unitGasData 0 415 true "O2" 1 =
        optical_depth unitGasData 100 415 true "O2" 1 :=
  ⟨⟨by decide, by decide⟩,
   C9_temperature_noninterference unitGasData 0 100 415 1 true "O2"
     (by decide) (by decide)⟩

/-- C10: an excluded selection silently yields the all-zero optical
depth, hence unit transmittance `exp(-0) = 1`: this happens both for
`target_gas='NH3'` with the trace-gas flag clear and for any selection
outside the enumerated target set. -/
theorem C10_silent_unit_transmittance (d : GasData) (tair co2_ppm pp0 : ℝ)
    (wt : Bool) (target : String)
    (h : (target = "NH3" ∧ wt = false) ∨ target ∉ knownTargets) :
    optical_depth d tair co2_ppm wt target pp0 = 0 ∧
    Real.exp (-(optical_depth d tair co2_ppm wt target pp0)) = 1 := by
  have h0 : optical_depth d tair co2_ppm wt target pp0 = 0 := by
    rcases h with ⟨hT, hW⟩ | hU
    · subst hT; subst hW
      rw [optical_depth_NH3]; simp
    · exact optical_depth_unknown d tair co2_ppm pp0 wt hU
  exact ⟨h0, by rw [h0]; simp⟩

/-- Witness for C10: the `'NH3'` selection with the trace-gas flag
clear. -/
theorem C10_silent_unit_transmittance_witness :
    (("NH3" = "NH3" ∧ false = false) ∨ "NH3" ∉ knownTargets)
    ∧ (optical_depth unitGasData 15 415 false "NH3" 1 = 0 ∧
       Real.exp (-(optical_depth unitGasData 15 415 false "NH3" 1)) = 1) :=
  ⟨Or.inl ⟨rfl, rfl⟩,
   C10_silent_unit_transmittance unitGasData 15 415 1 false "NH3"
     (Or.inl ⟨rfl, rfl⟩)⟩

/-- One value of `np.interp(x, xp, fp)` on the zipped point list
`xp.zip fp`: numpy returns `fp[0]` left of the grid, `fp[-1]` right of
it, and the linear interpolant on the bracketing segment in between.
The recursion walks the segments left to right. -/
def np_interp_pts (x : ℚ) : List (ℚ × ℚ) → ℚ
  | [] => 0
  | [p] => p.2
  | p :: q :: rest =>
      if x ≤ p.1 then p.2
      else if x ≤ q.1 then p.2 + (q.2 - p.2) * (x - p.1) / (q.1 - p.1)
      else np_interp_pts x (q :: rest)

/-- A component transmittance spectrum: its native wavelength grid
`wvl` (the component's `wvl_arr`) and its transmittance values. -/
structure Spectrum where
  wvl : List ℚ
  trans : List ℚ

/-- One `np.interp(wavelengths, comp.wvl_arr, trans_comp)` call of
`compare_matlab_python_transmission.py` (lines 47-67): numpy raises
`ValueError` when the sample-point array is empty, and otherwise maps
every target wavelength through the interpolant. -/
def interp_grid (target : List ℚ) (s : Spectrum) : Except String (List ℚ) :=
  if s.wvl.isEmpty then
    Except.error "ValueError: array of sample points is empty"
  else Except.ok (target.map fun x => np_interp_pts x (s.wvl.zip s.trans))

/-- The combiner of `compare_matlab_python_transmission.py`: the five
components are interpolated onto the target grid in source order
(lines 47, 52, 57, 62, 67) and multiplied elementwise (line 70,
`trans_total = trans_ray_interp * trans_oz_interp * trans_water_interp
* trans_aer_interp * trans_umg_interp`). -/
def trans_total (target : List ℚ) (ray oz water aer umg : Spectrum) :
    Except String (List ℚ) := do
  let r ← interp_grid target ray
  let o ← interp_grid target oz
  let w ← interp_grid target water
  let a ← interp_grid target aer
  let u ← interp_grid target umg
  pure (List.zipWith (· * ·)
    (List.zipWith (· * ·)
      (List.zipWith (· * ·) (List.zipWith (· * ·) r o) w) a) u)

/-- Strictly increasing wavelength grid, the §3 `WavelengthGrid`
invariant, as a boolean check. -/
def isStrictSorted : List ℚ → Bool
  | [] => true
  | [_] => true
  | a :: b :: rest => decide (a < b) && isStrictSorted (b :: rest)

/-- Modelled from the spec: the source combiner performs no grid
validation, and the spec's §4.6/§7 words demand a `DomainError` when a
component spectrum has fewer than 2 points or the target grid is empty
or non-monotonic; this checked variant follows the spec's words and is
compared against the code's actual behaviour. -/
def trans_total_checked (target : List ℚ) (ray oz water aer umg : Spectrum) :
    Except String (List ℚ) :=
  if target.isEmpty ∨ isStrictSorted target = false then
    Except.error "DomainError"
  else if ray.wvl.length < 2 ∨ oz.wvl.length < 2 ∨ water.wvl.length < 2
      ∨ aer.wvl.length < 2 ∨ umg.wvl.length < 2 then
    Except.error "DomainError"
  else trans_total target ray oz water aer umg

section InterpLemmas

theorem np_interp_pts_clamp_low (x : ℚ) (p : ℚ × ℚ) (ps : List (ℚ × ℚ))
    (h : x ≤ p.1) : np_interp_pts x (p :: ps) = p.2 := by
  cases ps with
  | nil => rfl
  | cons q rest => simp [np_interp_pts, h]

theorem np_interp_pts_singleton (x c v : ℚ) :
    np_interp_pts x [(c, v)] = v := rfl

theorem np_interp_pts_all_below (x : ℚ) :
    ∀ (ps : List (ℚ × ℚ)) (h : ps ≠ []), (∀ r ∈ ps, r.1 < x) →
      np_interp_pts x ps = (ps.getLast h).2 := by
  intro ps
  induction ps with
  | nil => intro h; exact absurd rfl h
  | cons p rest ih =>
    intro _ hall
    cases rest with
    | nil => rfl
    | cons q rest2 =>
      have hp : p.1 < x := hall p (by simp)
      have hq : q.1 < x := hall q (by simp)
      rw [List.getLast_cons (by simp)]
      show (if x ≤ p.1 then p.2
        else if x ≤ q.1 then p.2 + (q.2 - p.2) * (x - p.1) / (q.1 - p.1)
        else np_interp_pts x (q :: rest2)) = _
      rw [if_neg (not_le.mpr hp), if_neg (not_le.mpr hq)]
      exact ih (by simp) fun r hr => hall r (List.mem_cons_of_mem p hr)

theorem chain_fst_lt_of_append :
    ∀ (pre : List (ℚ × ℚ)) (p : ℚ × ℚ) (post : List (ℚ × ℚ)),
      List.Chain' (fun a b : ℚ × ℚ => a.1 < b.1) (pre ++ p :: post) →
      ∀ r ∈ pre, r.1 < p.1 := by
  intro pre
  induction pre with
  | nil => intro p post _ r hr; cases hr
  | cons a pre ih =>
    intro p post h r hr
    have h' : List.Chain' (fun a b : ℚ × ℚ => a.1 < b.1)
        (pre ++ p :: post) := by
      rw [List.cons_append] at h
      exact h.tail
    rcases List.mem_cons.mp hr with rfl | hr'
    · cases pre with
      | nil =>
        rw [List.cons_append, List.nil_append] at h
        exact (List.chain'_cons.mp h).1
      | cons b pre' =>
        have hab : r.1 < b.1 := by
          rw [List.cons_append, List.cons_append] at h
          exact (List.chain'_cons.mp h).1
        exact hab.trans (ih p post h' b (by simp))
    · exact ih p post h' r hr'

theorem np_interp_pts_clamp_high (x : ℚ) (ps : List (ℚ × ℚ)) (h : ps ≠ [])
    (hchain : List.Chain' (fun a b : ℚ × ℚ => a.1 < b.1) ps)
    (hlast : (ps.getLast h).1 < x) :
    np_interp_pts x ps = (ps.getLast h).2 := by
  refine np_interp_pts_all_below x ps h fun r hr => ?_
  have hmem : r ∈ ps.dropLast ++ [ps.getLast h] := by
    rw [List.dropLast_append_getLast h]; exact hr
  rcases List.mem_append.mp hmem with hpre | hsing
  · exact lt_trans (chain_fst_lt_of_append ps.dropLast (ps.getLast h) []
      (by rw [List.dropLast_append_getLast h]; exact hchain) r hpre) hlast
  · have hre : r = ps.getLast h := by simpa using hsing
    rw [hre]; exact hlast

end InterpLemmas

theorem np_interp_pts_bracket_below (x : ℚ) :
    ∀ (pre : List (ℚ × ℚ)) (p q : ℚ × ℚ) (post : List (ℚ × ℚ)),
      (∀ r ∈ pre, r.1 < x) → p.1 < x → x ≤ q.1 →
      np_interp_pts x (pre ++ p :: q :: post) =
        p.2 + (q.2 - p.2) * (x - p.1) / (q.1 - p.1) := by
  intro pre
  induction pre with
  | nil =>
    intro p q post _ hpx hxq
    rw [List.nil_append]
    show (if x ≤ p.1 then p.2
      else if x ≤ q.1 then p.2 + (q.2 - p.2) * (x - p.1) / (q.1 - p.1)
      else np_interp_pts x (q :: post)) = _
    rw [if_neg (not_le.mpr hpx), if_pos hxq]
  | cons a pre ih =>
    intro p q post hall hpx hxq
    have hax : a.1 < x := hall a (by simp)
    have hall' : ∀ r ∈ pre, r.1 < x :=
      fun r hr => hall r (List.mem_cons_of_mem a hr)
    rw [List.cons_append]
    cases hpre : pre with
    | nil =>
      subst hpre
      rw [List.nil_append]
      show (if x ≤ a.1 then a.2
        else if x ≤ p.1 then a.2 + (p.2 - a.2) * (x - a.1) / (p.1 - a.1)
        else np_interp_pts x (p :: q :: post)) = _
      rw [if_neg (not_le.mpr hax), if_neg (not_le.mpr hpx)]
      exact ih p q post hall' hpx hxq
    | cons b pre' =>
      have hbx : b.1 < x := hall' b (by rw [hpre]; simp)
      subst hpre
      rw [List.cons_append]
      show (if x ≤ a.1 then a.2
        else if x ≤ b.1 then a.2 + (b.2 - a.2) * (x - a.1) / (b.1 - a.1)
        else np_interp_pts x (b :: (pre' ++ p :: q :: post))) = _
      rw [if_neg (not_le.mpr hax), if_neg (not_le.mpr hbx)]
      exact ih p q post hall' hpx hxq

theorem np_interp_pts_bracket (x : ℚ) (pre : List (ℚ × ℚ)) (p q : ℚ × ℚ)
    (post : List (ℚ × ℚ))
    (hchain : List.Chain' (fun a b : ℚ × ℚ => a.1 < b.1)
      (pre ++ p :: q :: post))
    (hpx : p.1 < x) (hxq : x ≤ q.1) :
    np_interp_pts x (pre ++ p :: q :: post) =
      p.2 + (q.2 - p.2) * (x - p.1) / (q.1 - p.1) :=
  np_interp_pts_bracket_below x pre p q post
    (fun r hr =>
      lt_trans (chain_fst_lt_of_append pre p (q :: post) hchain r hr) hpx)
    hpx hxq

theorem zipWith_mul_map (f g : ℚ → ℚ) (l : List ℚ) :
    List.zipWith (· * ·) (l.map f) (l.map g) = l.map fun x => f x * g x := by
  induction l with
  | nil => rfl
  | cons a l ih => simp [ih]

theorem interp_grid_ok (target : List ℚ) (s : Spectrum) (h : s.wvl ≠ []) :
    interp_grid target s =
      Except.ok (target.map fun x => np_interp_pts x (s.wvl.zip s.trans)) := by
  rw [interp_grid, if_neg (by simpa using h)]

theorem interp_grid_err (target : List ℚ) (s : Spectrum) (h : s.wvl = []) :
    interp_grid target s =
      Except.error "ValueError: array of sample points is empty" := by
  rw [interp_grid, if_pos (by simpa using h)]

theorem trans_total_eq_ok (target : List ℚ) (ray oz water aer umg : Spectrum)
    (h1 : ray.wvl ≠ []) (h2 : oz.wvl ≠ []) (h3 : water.wvl ≠ [])
    (h4 : aer.wvl ≠ []) (h5 : umg.wvl ≠ []) :
    trans_total target ray oz water aer umg =
      Except.ok (target.map fun x =>
        np_interp_pts x (ray.wvl.zip ray.trans) *
        np_interp_pts x (oz.wvl.zip oz.trans) *
        np_interp_pts x (water.wvl.zip water.trans) *
        np_interp_pts x (aer.wvl.zip aer.trans) *
        np_interp_pts x (umg.wvl.zip umg.trans)) := by
  rw [trans_total, interp_grid_ok target ray h1, interp_grid_ok target oz h2,
    interp_grid_ok target water h3, interp_grid_ok target aer h4,
    interp_grid_ok target umg h5]
  show Except.ok _ = _
  rw [zipWith_mul_map, zipWith_mul_map, zipWith_mul_map, zipWith_mul_map]

theorem interp_grid_cases (target : List ℚ) (s : Spectrum) :
    interp_grid target s =
      Except.error "ValueError: array of sample points is empty"
    ∨ ∃ l, interp_grid target s = Except.ok l := by
  by_cases h : s.wvl = []
  · exact Or.inl (interp_grid_err target s h)
  · exact Or.inr ⟨_, interp_grid_ok target s h⟩

theorem trans_total_err_of_empty (target : List ℚ)
    (ray oz water aer umg : Spectrum)
    (h : ray.wvl = [] ∨ oz.wvl = [] ∨ water.wvl = [] ∨ aer.wvl = []
      ∨ umg.wvl = []) :
    trans_total target ray oz water aer umg =
      Except.error "ValueError: array of sample points is empty" := by
  rcases interp_grid_cases target ray with hr | ⟨r, hr⟩
  · simp [trans_total, hr, bind, Except.bind]
  rcases interp_grid_cases target oz with ho | ⟨o, ho⟩
  · simp [trans_total, hr, ho, bind, Except.bind]
  rcases interp_grid_cases target water with hw | ⟨w, hw⟩
  · simp [trans_total, hr, ho, hw, bind, Except.bind]
  rcases interp_grid_cases target aer with ha | ⟨a, ha⟩
  · simp [trans_total, hr, ho, hw, ha, bind, Except.bind]
  rcases interp_grid_cases target umg with hu | ⟨u, hu⟩
  · simp [trans_total, hr, ho, hw, ha, hu, bind, Except.bind, Functor.map,
      Except.map]
  exfalso
  rcases h with h | h | h | h | h
  · rw [interp_grid_err target ray h] at hr; cases hr
  · rw [interp_grid_err target oz h] at ho; cases ho
  · rw [interp_grid_err target water h] at hw; cases hw
  · rw [interp_grid_err target aer h] at ha; cases ha
  · rw [interp_grid_err target umg h] at hu; cases hu

/-- Two-point test spectrum on the native grid `[300, 1100]`. -/
def twoPointSpec : Spectrum := ⟨[300, 1100], [1, 1]⟩

/-- Single-point test spectrum: one sample at `500` with value `9/10`. -/
def onePointSpec : Spectrum := ⟨[500], [9/10]⟩

/-- C7: with every component grid nonempty, the combiner returns, at
each target wavelength, the product of the five interpolated component
values; and the interpolant is `np.interp`'s clamped linear
interpolation: left of the first point it returns the first value,
right of the last point (on a strictly increasing grid) the last value,
and on a bracketing segment the linear interpolant. -/
theorem C7_combiner_product_of_interpolants (target : List ℚ)
    (ray oz water aer umg : Spectrum)
    (h1 : ray.wvl ≠ []) (h2 : oz.wvl ≠ []) (h3 : water.wvl ≠ [])
    (h4 : aer.wvl ≠ []) (h5 : umg.wvl ≠ []) :
    trans_total target ray oz water aer umg =
      Except.ok (target.map fun x =>
        np_interp_pts x (ray.wvl.zip ray.trans) *
        np_interp_pts x (oz.wvl.zip oz.trans) *
        np_interp_pts x (water.wvl.zip water.trans) *
        np_interp_pts x (aer.wvl.zip aer.trans) *
        np_interp_pts x (umg.wvl.zip umg.trans))
    ∧ (∀ (x : ℚ) (p : ℚ × ℚ) (ps : List (ℚ × ℚ)), x ≤ p.1 →
        np_interp_pts x (p :: ps) = p.2)
    ∧ (∀ (x : ℚ) (ps : List (ℚ × ℚ)) (hne : ps ≠ []),
        List.Chain' (fun a b : ℚ × ℚ => a.1 < b.1) ps →
        (ps.getLast hne).1 < x →
        np_interp_pts x ps = (ps.getLast hne).2)
    ∧ (∀ (x : ℚ) (pre : List (ℚ × ℚ)) (p q : ℚ × ℚ) (post : List (ℚ × ℚ)),
        List.Chain' (fun a b : ℚ × ℚ => a.1 < b.1) (pre ++ p :: q :: post) →
        p.1 < x → x ≤ q.1 →
        np_interp_pts x (pre ++ p :: q :: post) =
          p.2 + (q.2 - p.2) * (x - p.1) / (q.1 - p.1)) :=
  ⟨trans_total_eq_ok target ray oz water aer umg h1 h2 h3 h4 h5,
   fun x p ps h => np_interp_pts_clamp_low x p ps h,
   fun x ps hne hch hl => np_interp_pts_clamp_high x ps hne hch hl,
   fun x pre p q post hch hpx hxq =>
     np_interp_pts_bracket x pre p q post hch hpx hxq⟩

/-- Witness for C7 on the target grid `[400, 600]` with five two-point
component spectra. -/
theorem C7_combiner_product_of_interpolants_witness :
    (twoPointSpec.wvl ≠ [] ∧ twoPointSpec.wvl ≠ [] ∧ twoPointSpec.wvl ≠ []
      ∧ twoPointSpec.wvl ≠ [] ∧ twoPointSpec.wvl ≠ [])
    ∧ (trans_total [400, 600] twoPointSpec twoPointSpec twoPointSpec
        twoPointSpec twoPointSpec =
      Except.ok (([400, 600] : List ℚ).map fun x =>
        np_interp_pts x (twoPointSpec.wvl.zip twoPointSpec.trans) *
        np_interp_pts x (twoPointSpec.wvl.zip twoPointSpec.trans) *
        np_interp_pts x (twoPointSpec.wvl.zip twoPointSpec.trans) *
        np_interp_pts x (twoPointSpec.wvl.zip twoPointSpec.trans) *
        np_interp_pts x (twoPointSpec.wvl.zip twoPointSpec.trans))
    ∧ (∀ (x : ℚ) (p : ℚ × ℚ) (ps : List (ℚ × ℚ)), x ≤ p.1 →
        np_interp_pts x (p :: ps) = p.2)
    ∧ (∀ (x : ℚ) (ps : List (ℚ × ℚ)) (hne : ps ≠ []),
        List.Chain' (fun a b : ℚ × ℚ => a.1 < b.1) ps →
        (ps.getLast hne).1 < x →
        np_interp_pts x ps = (ps.getLast hne).2)
    ∧ (∀ (x : ℚ) (pre : List (ℚ × ℚ)) (p q : ℚ × ℚ) (post : List (ℚ × ℚ)),
        List.Chain' (fun a b : ℚ × ℚ => a.1 < b.1) (pre ++ p :: q :: post) →
        p.1 < x → x ≤ q.1 →
        np_interp_pts x (pre ++ p :: q :: post) =
          p.2 + (q.2 - p.2) * (x - p.1) / (q.1 - p.1))) :=
  ⟨⟨by simp [twoPointSpec], by simp [twoPointSpec], by simp [twoPointSpec],
    by simp [twoPointSpec], by simp [twoPointSpec]⟩,
   C7_combiner_product_of_interpolants [400, 600] twoPointSpec twoPointSpec
     twoPointSpec twoPointSpec twoPointSpec (by simp [twoPointSpec])
     (by simp [twoPointSpec]) (by simp [twoPointSpec]) (by simp [twoPointSpec])
     (by simp [twoPointSpec])⟩

/-- C8 counterexample: a single-point Rayleigh component, a sorted
two-point target grid and two-point remaining components: the source
combiner happily returns a total spectrum, while the spec-modelled
checked combiner raises `DomainError` for the one-point component, so
the two computations differ. -/
theorem C8_no_domain_error_counterexample :
    trans_total [400, 600] onePointSpec twoPointSpec twoPointSpec
        twoPointSpec twoPointSpec ≠
      trans_total_checked [400, 600] onePointSpec twoPointSpec twoPointSpec
        twoPointSpec twoPointSpec := by
  have hok := trans_total_eq_ok [400, 600] onePointSpec twoPointSpec
    twoPointSpec twoPointSpec twoPointSpec (by simp [onePointSpec])
    (by simp [twoPointSpec]) (by simp [twoPointSpec]) (by simp [twoPointSpec])
    (by simp [twoPointSpec])
  have hchk : trans_total_checked [400, 600] onePointSpec twoPointSpec
      twoPointSpec twoPointSpec twoPointSpec =
      Except.error "DomainError" := by
    rw [trans_total_checked, if_neg (by norm_num [isStrictSorted]),
      if_pos (by norm_num [onePointSpec])]
  rw [hok, hchk]
  simp

/-- C8 amended: the source combiner performs no grid validation at all;
it fails exactly when some component wavelength grid is empty (numpy's
`ValueError`, not a `DomainError`), while a single-point component is
silently clamped to its constant sample value, whatever the target
grid. -/
theorem C8_combiner_failure_conditions (target : List ℚ)
    (ray oz water aer umg : Spectrum) :
    ((∃ res, trans_total target ray oz water aer umg = Except.ok res) ↔
      (ray.wvl ≠ [] ∧ oz.wvl ≠ [] ∧ water.wvl ≠ [] ∧ aer.wvl ≠ []
        ∧ umg.wvl ≠ []))
    ∧ ((ray.wvl = [] ∨ oz.wvl = [] ∨ water.wvl = [] ∨ aer.wvl = []
        ∨ umg.wvl = []) →
      trans_total target ray oz water aer umg =
        Except.error "ValueError: array of sample points is empty")
    ∧ (∀ (x c v : ℚ), np_interp_pts x [(c, v)] = v) := by
  refine ⟨⟨?_, ?_⟩, trans_total_err_of_empty target ray oz water aer umg,
    fun x c v => np_interp_pts_singleton x c v⟩
  · rintro ⟨res, hres⟩
    by_contra hcon
    have hempty : ray.wvl = [] ∨ oz.wvl = [] ∨ water.wvl = []
        ∨ aer.wvl = [] ∨ umg.wvl = [] := by
      by_contra hall
      push_neg at hall
      exact hcon ⟨hall.1, hall.2.1, hall.2.2.1, hall.2.2.2.1, hall.2.2.2.2⟩
    rw [trans_total_err_of_empty target ray oz water aer umg hempty] at hres
    cases hres
  · rintro ⟨n1, n2, n3, n4, n5⟩
    exact ⟨_, trans_total_eq_ok target ray oz water aer umg n1 n2 n3 n4 n5⟩

/-- Witness for the C2 dispatch theorem: concrete instance of its `O2`
conjunct at `pp0 = 1`. -/
theorem C2_airmass_dispatch_witness :
    optical_depth unitGasData 15 415 true "O2" 1 =
      unitGasData.absCoeff "o2" * o2_abundance 1 * unitGasData.airmass "o2" :=
  (C2_airmass_dispatch unitGasData 15 415 1 true).1

/-- Witness for C6 at the `'NH3'` selection with `pp0 = 1`. -/
theorem C6_trace_gas_gating_witness :
    optical_depth unitGasData 15 415 false "NH3" 1 =
      optical_depth unitGasData 15 415 true "NH3" 1
      - (if ("NH3" : String) = "NH3" ∨ ("NH3" : String) = "ALL" then
          unitGasData.absCoeff "nh3" * nh3_abundance 1 *
            unitGasData.airmass "nh3" else 0) :=
  C6_trace_gas_gating unitGasData 15 415 1 "NH3"

/-- Witness for the C8 amended theorem: its single-point clamping
conjunct at the sample `(500, 9/10)` evaluated at `5`. -/
theorem C8_combiner_failure_conditions_witness :
    np_interp_pts 5 [(500, 9/10)] = 9/10 :=
  (C8_combiner_failure_conditions [400, 600] twoPointSpec twoPointSpec
    twoPointSpec twoPointSpec twoPointSpec).2.2 5 500 (9/10)
